import Mathlib

/-!
Verification of the IT-ticket triage pipeline (LangGraph workflow manager).

This file gives a shallow embedding of the ticket-analysis pipeline of
`API/agents/workflow_manager.py`: the ticket state record, the four stage
nodes (classify, prioritize, recommend, qa_reviewer), the two conditional
routers (`should_skip_priority`, `qa_routing`), the result assembly of
`analyze_ticket`, the quick priority predictor `predict_priority`, and the
`AgentPerformanceTracker`.  Python floats are embedded as rationals (every
score produced by the pipeline is an exact decimal, and all float sums the
code performs — 0.3+0.3, 0.3+0.4, 0.3+0.2, 0.6+0.4, 0.6+0.2 — are exact in
binary64, so rational arithmetic agrees with the float arithmetic on every
reachable value).  Calls into the external classifier and retrieval
capabilities are modelled as explicit inputs (`ExternalWorld`), including
their failure modes; stages whose bodies perform no fallible external call
are embedded without their dead `except` branch, except for the prioritize
node whose error path is kept because the specification refers to it.
Wall-clock timings and log output are outside the functional model.
-/

/-! ## String helpers: Python `needle in haystack` on lowered text -/

/-- Check that `needle` is a prefix of `hay` (on character lists). -/
def startsWithL : List Char → List Char → Bool
  | [], _ => true
  | _ :: _, [] => false
  | a :: as, b :: bs => a == b && startsWithL as bs

/-- Check that `needle` occurs contiguously inside `hay`, as Python `in`. -/
def containsL (needle : List Char) : List Char → Bool
  | [] => startsWithL needle []
  | c :: rest => startsWithL needle (c :: rest) || containsL needle rest

/-- Python `needle in hay` for strings. -/
def strContains (hay needle : String) : Bool :=
  containsL needle.toList hay.toList

/-- Python `any(k in tl for k in keywords)`. -/
def anyKw (tl : String) (keywords : List String) : Bool :=
  keywords.any (fun k => strContains tl k)

/-- Python `s.lower()`, character by character. -/
def lowerStr (s : String) : String :=
  String.mk (s.toList.map Char.toLower)

/-- Python slicing `s[:n]`, counted in characters. -/
def strTake (s : String) (n : Nat) : String :=
  String.mk (s.toList.take n)

/-- Python `s.strip()`: drop leading and trailing whitespace. -/
def trimStr (s : String) : String :=
  String.mk
    (((s.toList.dropWhile Char.isWhitespace).reverse.dropWhile Char.isWhitespace).reverse)

/-- Split a character list at newline separators, Python `split` style. -/
def splitOnNl : List Char → List (List Char)
  | [] => [[]]
  | c :: rest =>
      match splitOnNl rest with
      | [] => [[]]
      | l :: ls => if c == '\n' then [] :: l :: ls else (c :: l) :: ls

/-- Python `s.split(chr(10))`. -/
def splitLinesStr (s : String) : List String :=
  (splitOnNl s.toList).map String.mk

/-! ## Data model: the per-stage output records of `TicketState` -/

/-- Output of the classification stage (`classification` dict). -/
structure Classification where
  category : String
  subcategory : String
  confidence : ℚ
  reasoning : String
deriving DecidableEq

/-- Output of the priority stage (`priority_prediction` dict). -/
structure PriorityPrediction where
  priority : String
  estimated_resolution_hours : ℚ
  confidence : ℚ
  factors : List String
  reasoning : String
deriving DecidableEq

/-- One recommended solution.  Entries coming from
`knowledge_service.get_recommendations` carry no
`estimated_time_minutes`/`success_rate` keys, hence those are optional. -/
structure Solution where
  solution_id : String
  title : String
  description : String
  steps : List String
  similarity_score : ℚ
  estimated_time_minutes : Option ℚ
  success_rate : Option ℚ
  source : String
deriving DecidableEq

/-- Output of the QA review stage (`qa_review` dict). -/
structure QAReview where
  quality_score : ℚ
  completeness : String
  improvements : List String
  status : String
deriving DecidableEq

/-- The human-review payload assembled when the quality gate fails. -/
structure DraftAnalysis where
  classification : Option Classification
  priority_prediction : Option PriorityPrediction
  recommended_solutions : List Solution
  qa_issues : List String
deriving DecidableEq

/-- The slice of `requester_info` the pipeline reads: only `department`.
`none` at either level models a missing dict / missing or null key. -/
structure RequesterInfo where
  department : Option String
deriving DecidableEq

/-- The `TicketState` TypedDict threaded through the workflow.
`agent_metrics` (wall-clock timings) is outside the functional model. -/
structure TicketState where
  ticket_id : String
  title : String
  description : String
  requester_info : Option RequesterInfo
  is_simple : Bool
  skip_priority : Bool
  ticket_length : Nat
  selected_model : String
  classification : Option Classification
  priority_prediction : Option PriorityPrediction
  recommended_solutions : Option (List Solution)
  qa_review : Option QAReview
  processing_steps : List String
  status : String
  needs_human_review : Bool
  draft_analysis : Option DraftAnalysis
  review_url : Option String
deriving DecidableEq

/-! ## External collaborators, modelled as explicit inputs -/

/-- Result dict returned by `model_service.classify_text`; each field models
one `.get(key, default)` access, `none` meaning the key is absent. -/
structure ClsOutcome where
  category : Option String
  confidence : Option ℚ
  reasoning : Option String
deriving DecidableEq

/-- One result dict of `knowledge_service.search` as read by the recommend
node.  `title`/`content_snippet` use `""` for a missing or null value, which
is exactly how the node's `or`-coalescing treats them. -/
structure SearchResult where
  doc_id : Option String
  title : String
  content_snippet : String
  metadata_steps : List String
  score : Option ℚ
  source : Option String
deriving DecidableEq

deriving instance DecidableEq for Except

/-- One run's worth of external behaviour: the classifier outcome, the two
retrieval tiers of the recommend node, and the stage failure switches. -/
structure ExternalWorld where
  cls : Except String ClsOutcome
  tier1 : List Solution
  tier2 : List SearchResult
  recommendError : Bool
  priorityError : Option String
deriving DecidableEq

/-! ## Classification stage -/

/-- Fast model constant of the cost-aware selector. -/
def fastModel : String := "llama-3.1-8b-instant"

/-- Deterministic subcategory mapping of `_classify_node`: a priority-ordered
keyword match per category with an exhaustive `"Other"` default. -/
def subcategoryFor (category tl : String) : String :=
  if category == "Email Issues" then
    if anyKw tl ["iphone", "ios", "android", "mobile", "phone", "tablet"] then "Mobile Email Sync"
    else if anyKw tl ["outlook", "client", "application"] then "Outlook"
    else if anyKw tl ["smtp", "send", "receive", "imap", "pop", "sync"] then "SMTP/IMAP"
    else if anyKw tl ["calendar", "meeting", "appointment"] then "Calendar"
    else "Email General"
  else if category == "Network Issues" then
    if anyKw tl ["wifi", "wireless"] then "WiFi"
    else if anyKw tl ["vpn", "remote"] then "VPN"
    else if anyKw tl ["internet", "web"] then "Internet"
    else if anyKw tl ["lan", "ethernet", "cable"] then "LAN"
    else "Connectivity"
  else if category == "Hardware Failures" then
    if anyKw tl ["desktop", "pc", "computer"] then "Desktop"
    else if anyKw tl ["laptop", "notebook"] then "Laptop"
    else if anyKw tl ["printer", "print"] then "Printer"
    else if anyKw tl ["mobile", "phone", "iphone", "android"] then "Mobile Device"
    else if anyKw tl ["mouse", "keyboard", "monitor", "peripheral"] then "Peripherals"
    else "Hardware General"
  else if category == "Software Problems" then
    if anyKw tl ["install", "installation"] then "Installation"
    else if anyKw tl ["update", "upgrade", "patch"] then "Update"
    else if anyKw tl ["error", "crash", "exception"] then "Application Error"
    else if anyKw tl ["windows", "linux", "macos", "os"] then "OS Problem"
    else "Software General"
  else if category == "Access & Permissions" || category == "Account Access" then
    if anyKw tl ["login", "sign in", "logon"] then "Login"
    else if anyKw tl ["password", "reset", "forgot"] then "Password"
    else if anyKw tl ["account", "user", "access"] then "Account Access"
    else if anyKw tl ["permission", "denied", "unauthorized"] then "File Permissions"
    else "Access General"
  else if category == "General Support" then
    if anyKw tl ["how to", "how do", "tutorial", "guide"] then "How-To"
    else if anyKw tl ["request", "need", "want"] then "Request"
    else "Other"
  else "Other"

/-- The `_classify_node` body.  `standardModel` is `self.standard_model`;
`ext` is the outcome of the `model_service.classify_text` call.  The length
and model fields are written to the state before that call, so they are set
on the error path as well. -/
def classifyNode (standardModel : String) (ext : Except String ClsOutcome)
    (st : TicketState) : TicketState :=
  let text := st.title ++ " " ++ st.description
  let st1 : TicketState :=
    { st with
      ticket_length := text.length,
      is_simple := decide (text.length < 100),
      selected_model := if text.length < 100 then fastModel else standardModel }
  match ext with
  | Except.ok cls =>
      let category := cls.category.getD "General Support"
      let tl := lowerStr text
      let subcategory := subcategoryFor category tl
      { st1 with
        classification := some
          { category := category,
            subcategory := subcategory,
            confidence := cls.confidence.getD 0.7,
            reasoning := cls.reasoning.getD
              ("Classified as " ++ category ++ "/" ++ subcategory ++
                " based on keyword analysis") },
        processing_steps := st1.processing_steps ++ ["classification_completed"] }
  | Except.error e =>
      { st1 with
        classification := some
          { category := "General Support",
            subcategory := "Needs Review",
            confidence := 0.5,
            reasoning := "Error: " ++ e },
        processing_steps := st1.processing_steps ++ ["classification_error"] }

/-! ## Adaptive routing after classification -/

/-- The `should_skip_priority` conditional edge: returns the next node name
and the (possibly mutated) state. -/
def should_skip_priority (st : TicketState) : String × TicketState :=
  let confidence : ℚ := (st.classification.map (fun c => c.confidence)).getD 0
  if confidence > 0.95 ∧ st.is_simple = true then
    ("recommend",
      { st with
        skip_priority := true,
        processing_steps := st.processing_steps ++ ["skipped_priority_due_to_confidence"] })
  else
    ("prioritize", st)

/-! ## Priority stage -/

/-- Critical-tier keywords of `_prioritize_node`. -/
def criticalKeywords : List String :=
  ["down", "outage", "not reachable", "cannot connect", "security breach",
   "data loss", "ransomware"]

/-- High-tier keywords of `_prioritize_node`. -/
def highKeywords : List String :=
  ["payroll", "finance", "vip", "executive", "ceo", "director"]

/-- Medium-tier keywords of `_prioritize_node`. -/
def mediumKeywords : List String :=
  ["slow", "performance", "minor", "workaround", "intermittent"]

/-- The deterministic priority heuristic of `_prioritize_node`: ordered
first-match rules on the lowered text and the lowered requester department,
always with confidence 0.7. -/
def priorityHeuristic (tl dept : String) : PriorityPrediction :=
  if anyKw tl criticalKeywords then
    { priority := "Critical", estimated_resolution_hours := 2, confidence := 0.7,
      factors := ["Service outage or security incident"],
      reasoning := "Critical priority due to service outage or security incident requiring immediate attention" }
  else if anyKw tl highKeywords || dept == "finance" || dept == "executive" then
    { priority := "High", estimated_resolution_hours := 8, confidence := 0.7,
      factors := ["High-impact user or system"],
      reasoning := "High priority due to business-critical user or financial system impact" }
  else if anyKw tl mediumKeywords then
    { priority := "Medium", estimated_resolution_hours := 24, confidence := 0.7,
      factors := ["Workaround available or minor impact"],
      reasoning := "Medium priority - issue has workaround or affects single user" }
  else
    { priority := "Low", estimated_resolution_hours := 72, confidence := 0.7,
      factors := ["General inquiry or cosmetic issue"],
      reasoning := "Low priority - general inquiry or minor cosmetic issue" }

/-- The `_prioritize_node` body.  `err = some msg` models the except branch
(confidence 0.5, Medium); `err = none` is the normal deterministic path. -/
def prioritizeNode (err : Option String) (st : TicketState) : TicketState :=
  match err with
  | some msg =>
      { st with
        priority_prediction := some
          { priority := "Medium", confidence := 0.5, estimated_resolution_hours := 24,
            factors := ["Error: " ++ msg],
            reasoning := "Priority set to Medium due to processing error" },
        processing_steps := st.processing_steps ++ ["priority_error"] }
  | none =>
      let dept := lowerStr ((st.requester_info.bind (fun r => r.department)).getD "")
      let tl := lowerStr (st.title ++ " " ++ st.description)
      { st with
        priority_prediction := some (priorityHeuristic tl dept),
        processing_steps := st.processing_steps ++ ["priority_prediction_completed"] }

/-! ## Solution recommendation stage -/

/-- Step extraction from a knowledge-base snippet: keep the stripped lines
that are non-blank and carry a digit among their first three characters. -/
def stepsFromSnippet (content : String) : List String :=
  ((splitLinesStr content).filter
      (fun line => trimStr line != "" && (line.toList.take 3).any Char.isDigit)).map
    (fun line => trimStr line)

/-- Conversion of the `i`-th broader search result into a solution entry, as
built in the widened-search tier of `_recommend_node`. -/
def broaderToSolution (i : Nat) (r : SearchResult) : Solution :=
  let steps0 :=
    if r.metadata_steps.isEmpty && r.content_snippet != "" then
      stepsFromSnippet r.content_snippet
    else r.metadata_steps
  { solution_id := r.doc_id.getD ("kb_" ++ toString i),
    title := if r.title == "" then "Similar Case" else r.title,
    description := strTake r.content_snippet 300,
    steps := if steps0.isEmpty then ["Refer to knowledge base article for details"] else steps0,
    similarity_score := r.score.getD 0.3,
    estimated_time_minutes := some 15,
    success_rate := some 0.7,
    source := r.source.getD "knowledge_base" }

/-- Domain dispatch of the static runbook: title, steps and estimated time
chosen from the lowered category name and the lowered query text. -/
def heuristicTitleSteps (cat tl : String) : String × List String × ℚ :=
  if strContains cat "email" || anyKw tl ["email", "mail", "outlook", "exchange"] then
    if anyKw tl ["iphone", "ios", "android", "mobile"] then
      ("Mobile Email Sync Troubleshooting",
       ["Open Settings > Mail > Accounts and select your work email",
        "Toggle \x27Mail\x27 OFF, wait 15 seconds, then toggle ON",
        "Check \x27Fetch New Data\x27 is set to Push or Fetch (not Manual)",
        "If sync still fails: Delete the account completely",
        "Re-add: Settings > Mail > Add Account > Exchange",
        "Enter your work email and password, verify server settings",
        "Test by sending yourself an email from another account"], 10)
    else
      ("Outlook/Email Client Troubleshooting",
       ["Close Outlook completely (check Task Manager for lingering processes)",
        "Restart Outlook in Safe Mode: Hold Ctrl while opening",
        "If Safe Mode works: Disable add-ins one by one to find culprit",
        "Run Outlook repair: File > Account Settings > Repair",
        "Check Send/Receive settings and folder permissions",
        "Verify OST/PST file size (over 10GB can cause issues)",
        "As last resort: Create new Outlook profile"], 20)
  else if strContains cat "network" || anyKw tl ["wifi", "vpn", "network", "internet", "connect"] then
    if anyKw tl ["wifi", "wireless"] then
      ("WiFi Connection Troubleshooting",
       ["Forget the WiFi network: Settings > WiFi > Network name > Forget",
        "Restart your device completely",
        "Reconnect: Select network, enter password carefully",
        "Verify other devices can connect (isolate device vs network issue)",
        "Check IP address: Should be 192.168.x.x or 10.x.x.x (not 169.254.x.x)",
        "Try different WiFi band (2.4GHz vs 5GHz)",
        "Contact IT if issue persists - may need MAC address whitelisting"], 15)
    else if anyKw tl ["vpn"] then
      ("VPN Connection Troubleshooting",
       ["Verify your VPN credentials and MFA status",
        "Check you\x27re on a stable internet connection (not hotel/airport WiFi)",
        "Clear VPN cache: Remove and re-add VPN profile",
        "Try alternate VPN protocol if available (IKEv2, L2TP, OpenVPN)",
        "Disable antivirus/firewall temporarily to test",
        "Check for VPN client updates",
        "Contact IT for server status and credentials reset"], 15)
    else
      ("General Network Troubleshooting",
       ["Restart your device and router/modem",
        "Check physical connections (cables, WiFi signal strength)",
        "Run network diagnostics: ping 8.8.8.8, nslookup google.com",
        "Flush DNS cache: ipconfig /flushdns (Windows) or sudo dscacheutil -flushcache (Mac)",
        "Check proxy settings and VPN status",
        "Test with different network (mobile hotspot)",
        "Contact IT with traceroute results if issue persists"], 20)
  else if strContains cat "hardware" || anyKw tl ["printer", "print", "laptop", "desktop", "monitor"] then
    if anyKw tl ["printer", "print"] then
      ("Printer Troubleshooting",
       ["Check printer is powered on and shows \x27Ready\x27 status",
        "Verify printer is connected (USB cable or WiFi)",
        "Check for paper jams, empty toner/ink, or error lights",
        "Clear print queue: Settings > Devices > Printers > Open queue > Cancel all",
        "Restart print spooler service (Windows: services.msc > Print Spooler)",
        "Remove and re-add printer in system settings",
        "Update or reinstall printer drivers from manufacturer website",
        "Test with different document/application"], 15)
    else
      ("Hardware Troubleshooting",
       ["Check all power cables and connections are secure",
        "Look for physical damage, warning lights, or unusual sounds",
        "Restart the device (full power cycle)",
        "Check for overheating (ensure vents are clear)",
        "Test with known-good accessories (cables, power adapter)",
        "Run hardware diagnostics if available (usually F12 at boot)",
        "Document error codes/sounds and contact IT support"], 20)
  else if strContains cat "software" || anyKw tl ["application", "app", "program", "software", "install"] then
    ("Software/Application Troubleshooting",
     ["Close the application completely (check Task Manager)",
      "Restart the application",
      "Check for pending updates: Help > Check for Updates",
      "Run as Administrator (right-click > Run as administrator)",
      "Check system requirements and compatibility",
      "Repair installation: Control Panel > Programs > Uninstall > Repair",
      "Check Event Viewer for error details (Windows Key + X > Event Viewer)",
      "As last resort: Uninstall completely and reinstall from official source"], 20)
  else if strContains cat "access" || strContains cat "login" || anyKw tl ["login", "password", "access", "account", "locked"] then
    ("Account Access Troubleshooting",
     ["Verify username and password are correct (check Caps Lock)",
      "Check if account is locked: Wait 30 minutes or contact IT",
      "Try password reset through self-service portal",
      "Verify MFA device is accessible and showing correct codes",
      "Check if account has expired or needs password change",
      "Try from different browser or incognito mode",
      "Clear browser cache and cookies",
      "Contact IT if issue persists - may need account unlock or reset"], 10)
  else
    ("General IT Support Steps",
     ["Document the exact error message, time, and what you were doing",
      "Restart the affected application or device",
      "Check for system updates and install pending updates",
      "Verify network connectivity and VPN status if applicable",
      "Check account status and permissions",
      "Try from different device or browser to isolate the issue",
      "Take screenshots of any errors",
      "Escalate to IT support with all gathered information"], 15)

/-- The static fallback solution built when both retrieval tiers are empty:
category-keyed runbook entry with similarity 0.35 and source `"heuristic"`. -/
def heuristicSolution (category : Option String) (tl : String) : Solution :=
  let cat := lowerStr (category.getD "")
  let r := heuristicTitleSteps cat tl
  let catName :=
    match category with
    | some c => if c == "" then "IT issues" else c
    | none => "IT issues"
  { solution_id := "generic_1",
    title := r.1,
    description := "Step-by-step troubleshooting for " ++ catName,
    steps := r.2.1,
    similarity_score := 0.35,
    estimated_time_minutes := some r.2.2,
    success_rate := some 0.7,
    source := "heuristic" }

/-- The solution list computed by `_recommend_node` on its non-exception
path: tier 1 is `knowledge_service.get_recommendations`, tier 2 the widened
`knowledge_service.search`, tier 3 the static runbook. -/
def recommendSolutions (tier1 : List Solution) (tier2 : List SearchResult)
    (category : Option String) (query : String) : List Solution :=
  let sols1 := if tier1.isEmpty then (List.map (fun p => broaderToSolution p.1 p.2) tier2.enum) else tier1
  if sols1.isEmpty then [heuristicSolution category (lowerStr query)] else sols1

/-- Low-confidence flag of `_recommend_node`: all similarity scores below 0.4. -/
def recommendLowConfidence (solutions : List Solution) : Bool :=
  solutions.all (fun s => decide (s.similarity_score < 0.4))

/-- Plain-English summary of `_recommend_node`: the top-2 titles joined. -/
def recommendSummary (solutions : List Solution) : String :=
  String.intercalate "; " ((solutions.take 2).map (fun s => s.title))

/-- Action items of `_recommend_node`: first two steps of every solution,
the first solution tagged High/Immediate and the rest Medium/As needed. -/
def recommendActionItems (solutions : List Solution) : List (String × String × String) :=
  (solutions.enum.map
    (fun p => (p.2.steps.take 2).map
      (fun step => (step,
        if p.1 == 0 then "High" else "Medium",
        if p.1 == 0 then "Immediate" else "As needed")))).flatten

/-- The `_recommend_node` body.  `rerr = true` models the except branch
(empty solution list).  The `summary`, `action_items` and `low_confidence`
keys the node also returns are not channels of `TicketState` (they are
modelled by the standalone functions above). -/
def recommendNode (tier1 : List Solution) (tier2 : List SearchResult) (rerr : Bool)
    (st : TicketState) : TicketState :=
  if rerr then
    { st with
      recommended_solutions := some [],
      processing_steps := st.processing_steps ++ ["recommendation_error"] }
  else
    let query := st.title ++ " " ++ st.description
    let category := st.classification.map (fun c => c.category)
    { st with
      recommended_solutions := some (recommendSolutions tier1 tier2 category query),
      processing_steps := st.processing_steps ++ ["solution_recommendation_completed"] }

/-! ## Quality gate -/

/-- Classification check of `_qa_review_node`: present and confidence
strictly above 0.7. -/
def qaClsOk (c : Option Classification) : Bool :=
  match c with
  | some cc => decide (cc.confidence > 0.7)
  | none => false

/-- Priority check of `_qa_review_node`: present and confidence strictly
above 0.7. -/
def qaPriOk (p : Option PriorityPrediction) : Bool :=
  match p with
  | some pp => decide (pp.confidence > 0.7)
  | none => false

/-- Additive quality score of `_qa_review_node`. -/
def qaScoreOf (c : Option Classification) (p : Option PriorityPrediction)
    (solutions : List Solution) : ℚ :=
  ((if qaClsOk c then (0.3 : ℚ) else 0) + (if qaPriOk p then (0.3 : ℚ) else 0)) +
    (if 1 ≤ solutions.length then (0.4 : ℚ) else 0.2)

/-- Issue list accumulated by `_qa_review_node`, in emission order. -/
def qaIssuesOf (c : Option Classification) (p : Option PriorityPrediction)
    (solutions : List Solution) : List String :=
  ((if qaClsOk c then [] else ["Low classification confidence"]) ++
    (if qaPriOk p then [] else ["Low priority prediction confidence"])) ++
    (if 1 ≤ solutions.length then [] else ["No solutions provided"])

/-- The `qa_review` record built by `_qa_review_node`. -/
def qaReviewOf (c : Option Classification) (p : Option PriorityPrediction)
    (solutions : List Solution) : QAReview :=
  let quality_score := qaScoreOf c p solutions
  let issues := qaIssuesOf c p solutions
  { quality_score := quality_score,
    completeness :=
      if issues.isEmpty then "complete" else "issues: " ++ String.intercalate ", " issues,
    improvements :=
      if quality_score < 0.75 then
        ["Consider manual review of low-confidence predictions"] ++
          (if solutions.length < 2 then ["Add more solution alternatives"] else [])
      else [],
    status := if quality_score ≥ 0.75 then "approved" else "needs_revision" }

/-- The `_qa_review_node` body: store the review and, below the 0.75
threshold, the human-review payload and review URL. -/
def qaReviewNode (st : TicketState) : TicketState :=
  let c := st.classification
  let p := st.priority_prediction
  let solutions := st.recommended_solutions.getD []
  let qa := qaReviewOf c p solutions
  let st1 : TicketState :=
    { st with
      qa_review := some qa,
      processing_steps := st.processing_steps ++ ["qa_review_completed"] }
  if qa.quality_score < 0.75 then
    { st1 with
      draft_analysis := some
        { classification := c,
          priority_prediction := p,
          recommended_solutions := solutions,
          qa_issues := qaIssuesOf c p solutions },
      review_url := some ("/api/v1/review/" ++ st.ticket_id) }
  else st1

/-! ## HITL routing and pipeline assembly -/

/-- The `qa_routing` conditional edge. -/
def qa_routing (st : TicketState) : TicketState :=
  let quality_score : ℚ := (st.qa_review.map (fun q => q.quality_score)).getD 1
  if quality_score < 0.75 then
    { st with needs_human_review := true, status := "needs_review" }
  else
    { st with status := "completed" }

/-- The initial `TicketState` built by `analyze_ticket`. -/
def initialState (ticket_id standardModel title description : String)
    (requester_info : Option RequesterInfo) : TicketState :=
  { ticket_id := ticket_id,
    title := title,
    description := description,
    requester_info := requester_info,
    is_simple := false,
    skip_priority := false,
    ticket_length := 0,
    selected_model := standardModel,
    classification := none,
    priority_prediction := none,
    recommended_solutions := none,
    qa_review := none,
    processing_steps := [],
    status := "processing",
    needs_human_review := false,
    draft_analysis := none,
    review_url := none }

/-- One run of the compiled workflow graph: classify, the skip-priority
branch, optionally prioritize, recommend, QA review, and the HITL edge. -/
def runWorkflow (w : ExternalWorld) (standardModel : String) (st0 : TicketState) :
    TicketState :=
  let st1 := classifyNode standardModel w.cls st0
  let routed := should_skip_priority st1
  let st2 := if routed.1 == "recommend" then routed.2 else prioritizeNode w.priorityError routed.2
  qa_routing (qaReviewNode (recommendNode w.tier1 w.tier2 w.recommendError st2))

/-- The response fields of `analyze_ticket` that the pipeline determines;
`response_formatter.format_complete_response` only adds presentation keys
and never touches these. -/
structure AnalysisResult where
  ticket_id : String
  classification : Option Classification
  priority_prediction : Option PriorityPrediction
  recommended_solutions : List Solution
  qa_review : Option QAReview
  status : String
  draft_analysis : Option DraftAnalysis
  review_url : Option String
deriving DecidableEq

/-- The `analyze_ticket` entry point on its workflow path: run the graph and
assemble the response, adding the HITL fields when flagged.  Returns the
final state together with the response. -/
def analyzeTicket (w : ExternalWorld) (ticket_id standardModel title description : String)
    (requester_info : Option RequesterInfo) : TicketState × AnalysisResult :=
  let fs := runWorkflow w standardModel
    (initialState ticket_id standardModel title description requester_info)
  (fs,
    { ticket_id := ticket_id,
      classification := fs.classification,
      priority_prediction := fs.priority_prediction,
      recommended_solutions := fs.recommended_solutions.getD [],
      qa_review := fs.qa_review,
      status := if fs.needs_human_review then "needs_review" else "completed",
      draft_analysis := if fs.needs_human_review then fs.draft_analysis else none,
      review_url := if fs.needs_human_review then fs.review_url else none })

/-- State after the classify node. -/
def pipeSt1 (w : ExternalWorld) (sm : String) (st0 : TicketState) : TicketState :=
  classifyNode sm w.cls st0

/-- State after the skip-priority branch and the optional prioritize node. -/
def pipeSt2 (w : ExternalWorld) (sm : String) (st0 : TicketState) : TicketState :=
  if (should_skip_priority (pipeSt1 w sm st0)).1 == "recommend" then
    (should_skip_priority (pipeSt1 w sm st0)).2
  else prioritizeNode w.priorityError (should_skip_priority (pipeSt1 w sm st0)).2

/-- State after the recommend node. -/
def pipeSt3 (w : ExternalWorld) (sm : String) (st0 : TicketState) : TicketState :=
  recommendNode w.tier1 w.tier2 w.recommendError (pipeSt2 w sm st0)

/-- State after the QA review node. -/
def pipeSt4 (w : ExternalWorld) (sm : String) (st0 : TicketState) : TicketState :=
  qaReviewNode (pipeSt3 w sm st0)

/-! ## Quick priority predictor (`predict_priority`, bulk path) -/

/-- High-tier keywords of `predict_priority`. -/
def quickHighKeywords : List String :=
  ["urgent", "immediately", "critical", "down", "cannot access", "outage",
   "emergency", "security breach", "data loss", "system failure"]

/-- Medium-tier keywords of `predict_priority`. -/
def quickMediumKeywords : List String :=
  ["slow", "delay", "performance", "degraded", "intermittent", "partial"]

/-- Low-tier keywords of `predict_priority`. -/
def quickLowKeywords : List String :=
  ["question", "how to", "help", "request", "feature", "suggestion", "info"]

/-- Departments that escalate to High in `predict_priority`. -/
def executiveDepartments : List String :=
  ["executive", "leadership", "finance", "c-level", "ceo", "cfo", "cio"]

/-- ETA map of `predict_priority`, defaulting to 24 hours. -/
def quickEtaMap (priority : String) : ℚ :=
  if priority == "High" then 8
  else if priority == "Medium" then 24
  else if priority == "Low" then 72
  else 24

/-- Keyword-tier block (`p1`) of `predict_priority`. -/
def quickBase (tl : String) : String × List String :=
  if anyKw tl quickHighKeywords then
    ("High", ["Contains urgent/critical keywords"])
  else if anyKw tl quickMediumKeywords then
    ("Medium", ["Performance or degraded service keywords"])
  else if anyKw tl quickLowKeywords then
    ("Low", ["Informational or request keywords"])
  else
    ("Medium", ["No strong priority keywords found; defaulted to Medium"])

/-- Department overlay block (`p2`) of `predict_priority`. -/
def quickDept (department : Option String) (p1 : String × List String) : String × List String :=
  match department with
  | some d =>
      if d != "" then
        let dep := lowerStr d
        if executiveDepartments.contains dep && p1.1 != "High" then
          ("High", p1.2 ++ ["Escalated due to department: " ++ d])
        else if [("hr" : String), "legal"].contains dep && p1.1 == "Low" then
          ("Medium", p1.2 ++ ["Raised to Medium due to department: " ++ d])
        else p1
      else p1
  | none => p1

/-- Security/breach/compliance escalation block (`p3`) of `predict_priority`. -/
def quickSec (sec : Bool) (p2 : String × List String) : String × List String :=
  if sec then
    if p2.1 != "High" then
      ("High", p2.2 ++ ["Security/compliance context triggers High priority"])
    else p2
  else p2

/-- The `predict_priority` body: keyword tiers, then the department overlay,
then the security/breach/compliance escalation. -/
def predict_priority (title description : String)
    (requester_info : Option RequesterInfo) : PriorityPrediction :=
  let tl := lowerStr (title ++ " " ++ description)
  let department : Option String := requester_info.bind (fun r => r.department)
  let p3 : String × List String :=
    quickSec
      (strContains tl "security" || strContains tl "breach" || strContains tl "compliance")
      (quickDept department (quickBase tl))
  { priority := p3.1,
    confidence := if p3.1 == "High" then 0.85 else 0.8,
    estimated_resolution_hours := quickEtaMap p3.1,
    factors := p3.2,
    reasoning := String.intercalate "; " p3.2 }

/-! ## Agent performance tracker -/

/-- One logged prediction of `AgentPerformanceTracker`; the three optional
fields are attached when feedback arrives. -/
structure PredictionRecord where
  agent : String
  ticket_id : String
  predicted : String
  confidence : ℚ
  actual : Option String
  feedback_source : Option String
  correct : Option Bool
deriving DecidableEq

/-- Running per-agent aggregate of `AgentPerformanceTracker.metrics`. -/
structure AgentMetric where
  total : Nat
  correct : Nat
  accuracy : ℚ
  avg_confidence : ℚ
deriving DecidableEq

/-- The tracker: an append-only prediction log plus a per-agent metrics
dict, modelled as an association list in insertion order. -/
structure AgentPerformanceTracker where
  predictions : List PredictionRecord
  metrics : List (String × AgentMetric)
deriving DecidableEq

/-- Lookup in the metrics dict. -/
def metricsFind (ms : List (String × AgentMetric)) (agent : String) : Option AgentMetric :=
  (ms.find? (fun kv => kv.1 == agent)).map (fun kv => kv.2)

/-- Write into the metrics dict: replace the existing entry or append. -/
def metricsSet (ms : List (String × AgentMetric)) (agent : String) (m : AgentMetric) :
    List (String × AgentMetric) :=
  if ms.any (fun kv => kv.1 == agent) then
    ms.map (fun kv => if kv.1 == agent then (agent, m) else kv)
  else ms ++ [(agent, m)]

/-- The fresh zeroed aggregate created on first feedback for an agent. -/
def emptyMetric : AgentMetric :=
  { total := 0, correct := 0, accuracy := 0, avg_confidence := 0 }

/-- `log_agent_prediction`: append a prediction record. -/
def log_agent_prediction (t : AgentPerformanceTracker)
    (agent ticket_id predicted : String) (confidence : ℚ) : AgentPerformanceTracker :=
  { t with
    predictions := t.predictions ++
      [{ agent := agent, ticket_id := ticket_id, predicted := predicted,
         confidence := confidence, actual := none, feedback_source := none,
         correct := none }] }

/-- Attach feedback to one prediction record. -/
def updateRecord (p : PredictionRecord) (actual src : String) : PredictionRecord :=
  { p with
    actual := some actual,
    feedback_source := some src,
    correct := some (lowerStr p.predicted == lowerStr actual) }

/-- The `for pred in self.predictions ... break` loop of
`log_agent_feedback`: update the first record matching `(ticket_id, agent)`
and report its correctness; `none` when no record matches. -/
def feedbackScan (ticket_id agent actual src : String) :
    List PredictionRecord → List PredictionRecord × Option Bool
  | [] => ([], none)
  | p :: rest =>
      if p.ticket_id == ticket_id && p.agent == agent then
        (updateRecord p actual src :: rest,
         some (lowerStr p.predicted == lowerStr actual))
      else
        let r := feedbackScan ticket_id agent actual src rest
        (p :: r.1, r.2)

/-- The aggregate update of `log_agent_feedback`: bump total, bump correct
when the feedback matched, recompute accuracy, keep avg_confidence. -/
def bumpMetric (m0 : AgentMetric) (ok : Bool) : AgentMetric :=
  { total := m0.total + 1,
    correct := m0.correct + (if ok then 1 else 0),
    accuracy := ((m0.correct + (if ok then 1 else 0) : Nat) : ℚ) / ((m0.total + 1 : Nat) : ℚ),
    avg_confidence := m0.avg_confidence }

/-- The `log_agent_feedback` body: scan for the first matching prediction,
attach the feedback, and update the per-agent aggregate. -/
def log_agent_feedback (t : AgentPerformanceTracker)
    (ticket_id agent actual src : String) : AgentPerformanceTracker :=
  let r := feedbackScan ticket_id agent actual src t.predictions
  match r.2 with
  | none => { t with predictions := r.1 }
  | some ok =>
      { predictions := r.1,
        metrics := metricsSet t.metrics agent
          (bumpMetric ((metricsFind t.metrics agent).getD emptyMetric) ok) }

/-! ## Concrete inputs used by witnesses -/

/-- External world with a keyless classifier reply and empty retrieval. -/
def wWitness : ExternalWorld :=
  { cls := Except.ok { category := none, confidence := none, reasoning := none },
    tier1 := [], tier2 := [], recommendError := false, priorityError := none }

/-- External world whose classifier reports confidence 0.96, driving the
skip-priority branch on short tickets. -/
def wSkip : ExternalWorld :=
  { cls := Except.ok { category := none, confidence := some 0.96, reasoning := none },
    tier1 := [], tier2 := [], recommendError := false, priorityError := none }

/-- Fallback review record used to name computed pipeline values. -/
def qaFallback : QAReview :=
  { quality_score := 0, completeness := "", improvements := [], status := "" }

/-- The review the pipeline computes on the witness run. -/
def qWitness : QAReview :=
  ((analyzeTicket wWitness "t" "m" "a" "b" none).1.qa_review).getD qaFallback

/-- Fallback priority record used to name computed pipeline values. -/
def priorityFallback : PriorityPrediction :=
  { priority := "", estimated_resolution_hours := 0, confidence := 0, factors := [],
    reasoning := "" }

/-- The priority the pipeline computes on the witness run. -/
def pWitness : PriorityPrediction :=
  ((analyzeTicket wWitness "t" "m" "a" "b" none).1.priority_prediction).getD priorityFallback

/-- First (earliest) prediction of the feedback counterexample. -/
def cexP1 : PredictionRecord :=
  { agent := "classifier", ticket_id := "t1", predicted := "A", confidence := 0.9,
    actual := none, feedback_source := none, correct := none }

/-- Second (most recent) prediction of the feedback counterexample. -/
def cexP2 : PredictionRecord :=
  { agent := "classifier", ticket_id := "t1", predicted := "B", confidence := 0.8,
    actual := none, feedback_source := none, correct := none }

/-- A prediction for an unrelated ticket, never matched by the scans. -/
def cexOther : PredictionRecord :=
  { agent := "classifier", ticket_id := "t0", predicted := "C", confidence := 0.5,
    actual := none, feedback_source := none, correct := none }

/-- Tracker holding two unfed-back predictions for the same ticket and stage. -/
def cexTracker : AgentPerformanceTracker :=
  { predictions := [cexP1, cexP2], metrics := [] }

/-- The tracker after one feedback call. -/
def cexT1 : AgentPerformanceTracker :=
  log_agent_feedback cexTracker "t1" "classifier" "B" "user"

/-- The tracker after a second, identical feedback call. -/
def cexT2 : AgentPerformanceTracker :=
  log_agent_feedback cexT1 "t1" "classifier" "B" "user"

/-- Concrete state used to exercise single-node theorems. -/
def stWitness : TicketState :=
  initialState "t" "m" "email is down" "cannot send" none

/-! ## Frame lemmas for the stage nodes -/

theorem classifyNode_priority (sm : String) (ext : Except String ClsOutcome) (st : TicketState) :
    (classifyNode sm ext st).priority_prediction = st.priority_prediction := by
  unfold classifyNode; cases ext <;> rfl

theorem classifyNode_qa (sm : String) (ext : Except String ClsOutcome) (st : TicketState) :
    (classifyNode sm ext st).qa_review = st.qa_review := by
  unfold classifyNode; cases ext <;> rfl

theorem classifyNode_needs (sm : String) (ext : Except String ClsOutcome) (st : TicketState) :
    (classifyNode sm ext st).needs_human_review = st.needs_human_review := by
  unfold classifyNode; cases ext <;> rfl

theorem classifyNode_cls_isSome (sm : String) (ext : Except String ClsOutcome) (st : TicketState) :
    ∃ c, (classifyNode sm ext st).classification = some c := by
  unfold classifyNode; cases ext <;> exact ⟨_, rfl⟩

theorem should_skip_priority_pres (st : TicketState) :
    ((should_skip_priority st).2.classification = st.classification ∧
      (should_skip_priority st).2.priority_prediction = st.priority_prediction) ∧
    ((should_skip_priority st).2.qa_review = st.qa_review ∧
      (should_skip_priority st).2.needs_human_review = st.needs_human_review) ∧
    ((should_skip_priority st).2.title = st.title ∧
      (should_skip_priority st).2.description = st.description ∧
      (should_skip_priority st).2.requester_info = st.requester_info ∧
      (should_skip_priority st).2.ticket_id = st.ticket_id ∧
      (should_skip_priority st).2.recommended_solutions = st.recommended_solutions) := by
  unfold should_skip_priority
  dsimp only
  split <;> exact ⟨⟨rfl, rfl⟩, ⟨rfl, rfl⟩, rfl, rfl, rfl, rfl, rfl⟩

theorem should_skip_priority_fst_iff (st : TicketState) :
    (should_skip_priority st).1 = "recommend" ↔
      ((st.classification.map (fun c => c.confidence)).getD 0 > 0.95 ∧ st.is_simple = true) := by
  unfold should_skip_priority
  dsimp only
  split
  next h => simpa using h
  next h => simp only [show ("prioritize" = "recommend") = False by decide]; simpa using h

theorem should_skip_priority_snd_pos (st : TicketState)
    (h : (st.classification.map (fun c => c.confidence)).getD 0 > 0.95 ∧ st.is_simple = true) :
    (should_skip_priority st).2 =
      { st with
        skip_priority := true
        processing_steps := st.processing_steps ++ ["skipped_priority_due_to_confidence"] } := by
  unfold should_skip_priority
  dsimp only
  rw [if_pos h]

theorem should_skip_priority_snd_neg (st : TicketState)
    (h : ¬((st.classification.map (fun c => c.confidence)).getD 0 > 0.95 ∧ st.is_simple = true)) :
    (should_skip_priority st).2 = st := by
  unfold should_skip_priority
  dsimp only
  rw [if_neg h]

theorem priorityHeuristic_confidence (tl dept : String) :
    (priorityHeuristic tl dept).confidence = 0.7 := by
  unfold priorityHeuristic
  split_ifs <;> rfl

theorem prioritizeNode_some (err : Option String) (st : TicketState) :
    ∃ p, (prioritizeNode err st).priority_prediction = some p ∧ p.confidence ≤ 0.7 := by
  cases err with
  | some msg => exact ⟨_, rfl, by norm_num⟩
  | none =>
      refine ⟨_, rfl, ?_⟩
      rw [priorityHeuristic_confidence]

theorem prioritizeNode_pres (err : Option String) (st : TicketState) :
    (prioritizeNode err st).classification = st.classification ∧
    (prioritizeNode err st).qa_review = st.qa_review ∧
    (prioritizeNode err st).needs_human_review = st.needs_human_review ∧
    (prioritizeNode err st).title = st.title ∧
    (prioritizeNode err st).description = st.description ∧
    (prioritizeNode err st).ticket_id = st.ticket_id ∧
    (prioritizeNode err st).recommended_solutions = st.recommended_solutions := by
  cases err <;> exact ⟨rfl, rfl, rfl, rfl, rfl, rfl, rfl⟩

theorem recommendNode_eq_false (t1 : List Solution) (t2 : List SearchResult) (st : TicketState) :
    recommendNode t1 t2 false st =
      { st with
        recommended_solutions := some (recommendSolutions t1 t2
          (st.classification.map (fun c => c.category)) (st.title ++ " " ++ st.description)),
        processing_steps := st.processing_steps ++ ["solution_recommendation_completed"] } := rfl

theorem recommendNode_eq_true (t1 : List Solution) (t2 : List SearchResult) (st : TicketState) :
    recommendNode t1 t2 true st =
      { st with
        recommended_solutions := some [],
        processing_steps := st.processing_steps ++ ["recommendation_error"] } := rfl

theorem recommendNode_pres (t1 : List Solution) (t2 : List SearchResult) (e : Bool)
    (st : TicketState) :
    (recommendNode t1 t2 e st).classification = st.classification ∧
    (recommendNode t1 t2 e st).priority_prediction = st.priority_prediction ∧
    (recommendNode t1 t2 e st).qa_review = st.qa_review ∧
    (recommendNode t1 t2 e st).needs_human_review = st.needs_human_review ∧
    (recommendNode t1 t2 e st).ticket_id = st.ticket_id := by
  cases e <;> exact ⟨rfl, rfl, rfl, rfl, rfl⟩

theorem recommendNode_sols_isSome (t1 : List Solution) (t2 : List SearchResult) (e : Bool)
    (st : TicketState) :
    ∃ sols, (recommendNode t1 t2 e st).recommended_solutions = some sols := by
  cases e <;> exact ⟨_, rfl⟩

theorem recommendNode_steps (t1 : List Solution) (t2 : List SearchResult) (e : Bool)
    (st : TicketState) :
    ∃ s, (recommendNode t1 t2 e st).processing_steps = st.processing_steps ++ [s] := by
  cases e <;> exact ⟨_, rfl⟩

theorem qaReviewOf_score (c : Option Classification) (p : Option PriorityPrediction)
    (sols : List Solution) :
    (qaReviewOf c p sols).quality_score = qaScoreOf c p sols := rfl

theorem qaReviewNode_qa (st : TicketState) :
    (qaReviewNode st).qa_review =
      some (qaReviewOf st.classification st.priority_prediction
        (st.recommended_solutions.getD [])) := by
  unfold qaReviewNode
  dsimp only
  split <;> rfl

theorem qaReviewNode_pres (st : TicketState) :
    (qaReviewNode st).classification = st.classification ∧
    (qaReviewNode st).priority_prediction = st.priority_prediction ∧
    (qaReviewNode st).recommended_solutions = st.recommended_solutions ∧
    (qaReviewNode st).needs_human_review = st.needs_human_review := by
  unfold qaReviewNode
  dsimp only
  split <;> exact ⟨rfl, rfl, rfl, rfl⟩

theorem qaReviewNode_steps (st : TicketState) :
    (qaReviewNode st).processing_steps = st.processing_steps ++ ["qa_review_completed"] := by
  unfold qaReviewNode
  dsimp only
  split <;> rfl

theorem qaReviewNode_draft_of_lt (st : TicketState)
    (h : qaScoreOf st.classification st.priority_prediction
        (st.recommended_solutions.getD []) < 0.75) :
    (qaReviewNode st).draft_analysis =
      some
        { classification := st.classification,
          priority_prediction := st.priority_prediction,
          recommended_solutions := st.recommended_solutions.getD [],
          qa_issues := qaIssuesOf st.classification st.priority_prediction
            (st.recommended_solutions.getD []) } ∧
    (qaReviewNode st).review_url = some ("/api/v1/review/" ++ st.ticket_id) := by
  unfold qaReviewNode
  dsimp only
  rw [if_pos (by simpa [qaReviewOf_score] using h)]
  exact ⟨rfl, rfl⟩

theorem qa_routing_pres (st : TicketState) :
    (qa_routing st).qa_review = st.qa_review ∧
    (qa_routing st).classification = st.classification ∧
    (qa_routing st).priority_prediction = st.priority_prediction ∧
    (qa_routing st).recommended_solutions = st.recommended_solutions ∧
    (qa_routing st).draft_analysis = st.draft_analysis ∧
    (qa_routing st).review_url = st.review_url ∧
    (qa_routing st).processing_steps = st.processing_steps := by
  unfold qa_routing
  dsimp only
  split <;> exact ⟨rfl, rfl, rfl, rfl, rfl, rfl, rfl⟩

theorem qa_routing_of_lt (st : TicketState)
    (h : ((st.qa_review.map (fun q => q.quality_score)).getD 1) < 0.75) :
    (qa_routing st).needs_human_review = true ∧ (qa_routing st).status = "needs_review" := by
  unfold qa_routing
  dsimp only
  rw [if_pos h]
  exact ⟨rfl, rfl⟩

theorem qa_routing_of_ge (st : TicketState)
    (h : ¬(((st.qa_review.map (fun q => q.quality_score)).getD 1) < 0.75)) :
    (qa_routing st).needs_human_review = st.needs_human_review ∧
    (qa_routing st).status = "completed" := by
  unfold qa_routing
  dsimp only
  rw [if_neg h]
  exact ⟨rfl, rfl⟩

/-! ## Pipeline decomposition lemmas -/

theorem runWorkflow_eq (w : ExternalWorld) (sm : String) (st0 : TicketState) :
    runWorkflow w sm st0 = qa_routing (pipeSt4 w sm st0) := rfl

theorem analyzeTicket_fst (w : ExternalWorld) (tid sm title descr : String)
    (req : Option RequesterInfo) :
    (analyzeTicket w tid sm title descr req).1 =
      qa_routing (pipeSt4 w sm (initialState tid sm title descr req)) := rfl

theorem analyzeTicket_snd_status (w : ExternalWorld) (tid sm title descr : String)
    (req : Option RequesterInfo) :
    (analyzeTicket w tid sm title descr req).2.status =
      (if (analyzeTicket w tid sm title descr req).1.needs_human_review then "needs_review"
       else "completed") := rfl

theorem analyzeTicket_snd_draft (w : ExternalWorld) (tid sm title descr : String)
    (req : Option RequesterInfo) :
    (analyzeTicket w tid sm title descr req).2.draft_analysis =
      (if (analyzeTicket w tid sm title descr req).1.needs_human_review then
        (analyzeTicket w tid sm title descr req).1.draft_analysis
      else none) := rfl

theorem analyzeTicket_snd_review_url (w : ExternalWorld) (tid sm title descr : String)
    (req : Option RequesterInfo) :
    (analyzeTicket w tid sm title descr req).2.review_url =
      (if (analyzeTicket w tid sm title descr req).1.needs_human_review then
        (analyzeTicket w tid sm title descr req).1.review_url
      else none) := rfl

theorem analyzeTicket_snd_sols (w : ExternalWorld) (tid sm title descr : String)
    (req : Option RequesterInfo) :
    (analyzeTicket w tid sm title descr req).2.recommended_solutions =
      (analyzeTicket w tid sm title descr req).1.recommended_solutions.getD [] := rfl

theorem pipeSt2_classification (w : ExternalWorld) (sm : String) (st0 : TicketState) :
    (pipeSt2 w sm st0).classification = (pipeSt1 w sm st0).classification := by
  unfold pipeSt2
  split
  · exact (should_skip_priority_pres _).1.1
  · rw [(prioritizeNode_pres _ _).1, (should_skip_priority_pres _).1.1]

theorem pipeSt2_needs (w : ExternalWorld) (sm : String) (st0 : TicketState) :
    (pipeSt2 w sm st0).needs_human_review = st0.needs_human_review := by
  unfold pipeSt2
  split
  · rw [(should_skip_priority_pres _).2.1.2]
    unfold pipeSt1
    exact classifyNode_needs _ _ _
  · rw [(prioritizeNode_pres _ _).2.2.1, (should_skip_priority_pres _).2.1.2]
    unfold pipeSt1
    exact classifyNode_needs _ _ _

theorem pipeSt2_priority_conf (w : ExternalWorld) (sm : String) (st0 : TicketState)
    (h0 : st0.priority_prediction = none) :
    ∀ p, (pipeSt2 w sm st0).priority_prediction = some p → p.confidence ≤ 0.7 := by
  intro p hp
  unfold pipeSt2 at hp
  split at hp
  · rw [(should_skip_priority_pres _).1.2] at hp
    unfold pipeSt1 at hp
    rw [classifyNode_priority, h0] at hp
    exact Option.noConfusion hp
  · obtain ⟨q, hq, hle⟩ := prioritizeNode_some w.priorityError
      (should_skip_priority (pipeSt1 w sm st0)).2
    rw [hq] at hp
    cases hp
    exact hle

theorem fs_classification (w : ExternalWorld) (sm : String) (st0 : TicketState) :
    (qa_routing (pipeSt4 w sm st0)).classification = (pipeSt1 w sm st0).classification := by
  rw [(qa_routing_pres _).2.1]
  unfold pipeSt4
  rw [(qaReviewNode_pres _).1]
  unfold pipeSt3
  rw [(recommendNode_pres _ _ _ _).1]
  exact pipeSt2_classification w sm st0

theorem fs_priority (w : ExternalWorld) (sm : String) (st0 : TicketState) :
    (qa_routing (pipeSt4 w sm st0)).priority_prediction = (pipeSt2 w sm st0).priority_prediction := by
  rw [(qa_routing_pres _).2.2.1]
  unfold pipeSt4
  rw [(qaReviewNode_pres _).2.1]
  unfold pipeSt3
  exact (recommendNode_pres _ _ _ _).2.1

theorem fs_sols (w : ExternalWorld) (sm : String) (st0 : TicketState) :
    (qa_routing (pipeSt4 w sm st0)).recommended_solutions = (pipeSt3 w sm st0).recommended_solutions := by
  rw [(qa_routing_pres _).2.2.2.1]
  unfold pipeSt4
  exact (qaReviewNode_pres _).2.2.1

theorem fs_qa (w : ExternalWorld) (sm : String) (st0 : TicketState) :
    (qa_routing (pipeSt4 w sm st0)).qa_review =
      some (qaReviewOf (pipeSt3 w sm st0).classification (pipeSt3 w sm st0).priority_prediction
        ((pipeSt3 w sm st0).recommended_solutions.getD [])) := by
  rw [(qa_routing_pres _).1]
  unfold pipeSt4
  exact qaReviewNode_qa _

/-! ## Claim theorems -/

theorem subcategoryFor_ne_empty (category tl : String) : subcategoryFor category tl ≠ "" := by
  unfold subcategoryFor
  repeat' split
  all_goals decide

/-- C5: for every (category, text) pair, including empty or nonsense text,
the classification produced by the classification stage carries a non-empty
subcategory: the resolver `subcategoryFor` has an exhaustive default branch
yielding "Other", and the stage's error path yields "Needs Review". -/
theorem classification_subcategory_never_empty (sm : String)
    (ext : Except String ClsOutcome) (st : TicketState) :
    (∀ c, (classifyNode sm ext st).classification = some c → c.subcategory ≠ "") ∧
    (∀ category tl, subcategoryFor category tl ≠ "") ∧
    (∀ e, ext = Except.error e →
      ((classifyNode sm ext st).classification.map (fun c => c.subcategory)) =
        some "Needs Review") := by
  refine ⟨?_, fun category tl => subcategoryFor_ne_empty category tl, ?_⟩
  · intro c hc
    unfold classifyNode at hc
    cases ext with
    | ok cls =>
        dsimp only at hc
        rw [Option.some.injEq] at hc
        subst hc
        exact subcategoryFor_ne_empty _ _
    | error e =>
        dsimp only at hc
        rw [Option.some.injEq] at hc
        subst hc
        simp
  · intro e he
    subst he
    rfl

/-- Witness for C5 at concrete inputs: a nonsense pair through the resolver,
and the error path of the classification stage. -/
theorem classification_subcategory_never_empty_witness :
    subcategoryFor "Email Issues" "zzz qq" ≠ "" ∧
    ((classifyNode "m" (Except.error "boom") stWitness).classification.map
      (fun c => c.subcategory)) = some "Needs Review" :=
  ⟨(classification_subcategory_never_empty "m" (Except.error "boom") stWitness).2.1
      "Email Issues" "zzz qq",
   (classification_subcategory_never_empty "m" (Except.error "boom") stWitness).2.2 "boom" rfl⟩

/-- C7: the priority stage applies ordered first-match rules —
outage/security/data-loss keywords give Critical with 2h ETA regardless of
department, then finance/executive keywords or department give High with 8h,
then degraded-service keywords give Medium with 24h, else Low with 72h; in
particular any text containing "ransomware" yields Critical. -/
theorem priority_stage_ordered_rules (tl dept : String) :
    (∀ st : TicketState, (prioritizeNode none st).priority_prediction =
      some (priorityHeuristic (lowerStr (st.title ++ " " ++ st.description))
        (lowerStr ((st.requester_info.bind (fun r => r.department)).getD "")))) ∧
    ((priorityHeuristic tl dept).priority, (priorityHeuristic tl dept).estimated_resolution_hours) =
      (if anyKw tl criticalKeywords then ("Critical", (2 : ℚ))
       else if anyKw tl highKeywords || dept == "finance" || dept == "executive" then ("High", 8)
       else if anyKw tl mediumKeywords then ("Medium", 24)
       else ("Low", 72)) ∧
    (strContains tl "ransomware" = true → (priorityHeuristic tl dept).priority = "Critical") := by
  refine ⟨fun st => rfl, ?_, ?_⟩
  · unfold priorityHeuristic
    split_ifs <;> rfl
  · intro h
    have hc : anyKw tl criticalKeywords = true := by
      unfold anyKw
      rw [List.any_eq_true]
      exact ⟨"ransomware", by decide, h⟩
    unfold priorityHeuristic
    rw [if_pos hc]

/-- Witness for C7: a ransomware ticket is Critical even for an executive
department. -/
theorem priority_stage_ordered_rules_witness :
    (priorityHeuristic (lowerStr "Ransomware detected on server") "executive").priority =
      "Critical" :=
  (priority_stage_ordered_rules (lowerStr "Ransomware detected on server") "executive").2.2
    (by decide)

/-- C10 counterexample: with title "a" and description "b" the stage stores
ticket_length 3 (the joined text "a b"), while the character count of
`title + description` is 2 — the claim as stated fails. -/
theorem ticket_length_counterexample :
    (classifyNode "m" (Except.ok { category := none, confidence := none, reasoning := none })
      (initialState "t" "m" "a" "b" none)).ticket_length = 3 ∧
    ("a" ++ "b").length = 2 ∧ (3 : Nat) ≠ 2 := by
  refine ⟨?_, by decide, by decide⟩
  with_unfolding_all decide

/-- C10 amended: the classification stage sets `ticket_length` to the
character count of the joined text `title + " " + description`, i.e. one
more than the count of `title + description`, and sets `is_simple` true
exactly when that length is below 100. -/
theorem ticket_length_and_is_simple (sm : String) (ext : Except String ClsOutcome)
    (st : TicketState) :
    (classifyNode sm ext st).ticket_length = st.title.length + st.description.length + 1 ∧
    ((classifyNode sm ext st).is_simple = true ↔ (classifyNode sm ext st).ticket_length < 100) := by
  have hl : (st.title ++ " " ++ st.description).length =
      st.title.length + st.description.length + 1 := by
    rw [String.length_append, String.length_append]
    have hsp : (" " : String).length = 1 := rfl
    omega
  have h1 : (classifyNode sm ext st).ticket_length =
      (st.title ++ " " ++ st.description).length := by
    unfold classifyNode
    cases ext <;> rfl
  have h2 : (classifyNode sm ext st).is_simple =
      decide ((st.title ++ " " ++ st.description).length < 100) := by
    unfold classifyNode
    cases ext <;> rfl
  refine ⟨h1.trans hl, ?_⟩
  rw [h1, h2, decide_eq_true_eq]

/-- Witness for C10 amended at a concrete ticket. -/
theorem ticket_length_and_is_simple_witness :
    (classifyNode "m" (Except.error "x") stWitness).ticket_length =
      stWitness.title.length + stWitness.description.length + 1 ∧
    ((classifyNode "m" (Except.error "x") stWitness).is_simple = true ↔
      (classifyNode "m" (Except.error "x") stWitness).ticket_length < 100) :=
  ticket_length_and_is_simple "m" (Except.error "x") stWitness

/-- C2: the quality gate returns as quality_score the sum of 0.3 when the
classification is present with confidence above 0.7 (else 0, with "Low
classification confidence" recorded), 0.3 under the same rule for the
priority, and 0.4 when at least one solution is present (else 0.2 partial
credit with an issue noted); status is "approved" exactly when the score
reaches 0.75.  The node stores this review on the state. -/
theorem quality_gate_scoring (c : Option Classification) (p : Option PriorityPrediction)
    (sols : List Solution) :
    (∀ st : TicketState, (qaReviewNode st).qa_review =
      some (qaReviewOf st.classification st.priority_prediction
        (st.recommended_solutions.getD []))) ∧
    (qaReviewOf c p sols).quality_score =
      ((match c with
        | some cc => if cc.confidence > 0.7 then (0.3 : ℚ) else 0
        | none => 0) +
       (match p with
        | some pp => if pp.confidence > 0.7 then (0.3 : ℚ) else 0
        | none => 0)) +
      (if 1 ≤ sols.length then (0.4 : ℚ) else 0.2) ∧
    (qaClsOk c = false → "Low classification confidence" ∈ qaIssuesOf c p sols) ∧
    (sols.length = 0 → "No solutions provided" ∈ qaIssuesOf c p sols) ∧
    ((qaReviewOf c p sols).status = "approved" ↔ 0.75 ≤ (qaReviewOf c p sols).quality_score) := by
  refine ⟨fun st => qaReviewNode_qa st, ?_, ?_, ?_, ?_⟩
  · rw [qaReviewOf_score]
    unfold qaScoreOf qaClsOk qaPriOk
    cases c <;> cases p <;> simp only [decide_eq_true_eq] <;> split_ifs <;> simp_all
  · intro h
    unfold qaIssuesOf
    rw [h]
    simp
  · intro h
    unfold qaIssuesOf
    rw [h]
    simp
  · show (if qaScoreOf c p sols ≥ 0.75 then "approved" else "needs_revision") = "approved" ↔ _
    rw [qaReviewOf_score]
    split_ifs with h
    · simpa using h
    · constructor
      · intro hcontra
        exact absurd hcontra (by decide)
      · intro hge
        exact absurd hge h

/-- Witness for C2: with no classification, no priority and no solutions
both issues are recorded and the gate does not approve. -/
theorem quality_gate_scoring_witness :
    "Low classification confidence" ∈ qaIssuesOf none none [] ∧
    "No solutions provided" ∈ qaIssuesOf none none [] ∧
    ((qaReviewOf none none []).status = "approved" ↔
      0.75 ≤ (qaReviewOf none none []).quality_score) :=
  ⟨(quality_gate_scoring none none []).2.2.1 rfl,
   (quality_gate_scoring none none []).2.2.2.1 rfl,
   (quality_gate_scoring none none []).2.2.2.2⟩

/-- C4: on every non-exception run of the solution stage, including runs
where retrieval returns an empty list at every tier, the stage stores a
solution list of length at least one, and when both retrieval tiers are
empty every stored entry is the static runbook entry with source
"heuristic". -/
theorem recommended_solutions_never_empty (st : TicketState) (t1 : List Solution)
    (t2 : List SearchResult) :
    ∃ sols, (recommendNode t1 t2 false st).recommended_solutions = some sols ∧
      1 ≤ sols.length ∧
      (t1 = [] → t2 = [] → sols = [heuristicSolution (st.classification.map (fun c => c.category))
        (lowerStr (st.title ++ " " ++ st.description))] ∧ ∀ s ∈ sols, s.source = "heuristic") := by
  rw [recommendNode_eq_false]
  refine ⟨_, rfl, ?_, ?_⟩
  · unfold recommendSolutions
    cases t1 with
    | cons a l => simp
    | nil =>
        cases t2 with
        | nil => simp
        | cons b l =>
            simp only [List.isEmpty_nil, if_true]
            have hne : ¬(List.map (fun p => broaderToSolution p.1 p.2) ((b :: l).enum)).isEmpty = true := by
              simp [List.enum_cons]
            rw [if_neg hne]
            simp [List.enum_cons]
  · intro h1 h2
    subst h1; subst h2
    constructor
    · rfl
    · intro s hs
      unfold recommendSolutions at hs
      simp only [List.isEmpty_nil, List.enum_nil, List.map_nil, if_true] at hs
      rw [List.mem_singleton] at hs
      subst hs
      rfl

/-- Witness for C4: empty retrieval at both tiers on a concrete state still
yields one runbook solution. -/
theorem recommended_solutions_never_empty_witness :
    ∃ sols, (recommendNode [] [] false stWitness).recommended_solutions = some sols ∧
      1 ≤ sols.length ∧
      (([] : List Solution) = [] → ([] : List SearchResult) = [] →
        sols = [heuristicSolution (stWitness.classification.map (fun c => c.category))
          (lowerStr (stWitness.title ++ " " ++ stWitness.description))] ∧
        ∀ s ∈ sols, s.source = "heuristic") :=
  recommended_solutions_never_empty stWitness [] []

theorem should_skip_priority_fst_neg (st : TicketState)
    (h : ¬((st.classification.map (fun c => c.confidence)).getD 0 > 0.95 ∧ st.is_simple = true)) :
    (should_skip_priority st).1 = "prioritize" := by
  unfold should_skip_priority
  dsimp only
  rw [if_neg h]

/-- C6: immediately after classify, prioritize is skipped exactly when the
classification confidence exceeds 0.95 and the ticket is simple; a skipped
run records "skipped_priority_due_to_confidence" and finishes with no
priority prediction, while every other run gets one. -/
theorem skip_priority_branch (w : ExternalWorld) (tid sm title descr : String)
    (req : Option RequesterInfo) :
    ((should_skip_priority (pipeSt1 w sm (initialState tid sm title descr req))).1 = "recommend" ↔
      (((pipeSt1 w sm (initialState tid sm title descr req)).classification.map
          (fun c => c.confidence)).getD 0 > 0.95 ∧
        (pipeSt1 w sm (initialState tid sm title descr req)).is_simple = true)) ∧
    ((((pipeSt1 w sm (initialState tid sm title descr req)).classification.map
          (fun c => c.confidence)).getD 0 > 0.95 ∧
        (pipeSt1 w sm (initialState tid sm title descr req)).is_simple = true) →
      "skipped_priority_due_to_confidence" ∈
          (analyzeTicket w tid sm title descr req).1.processing_steps ∧
        (analyzeTicket w tid sm title descr req).1.priority_prediction = none) ∧
    (¬(((pipeSt1 w sm (initialState tid sm title descr req)).classification.map
          (fun c => c.confidence)).getD 0 > 0.95 ∧
        (pipeSt1 w sm (initialState tid sm title descr req)).is_simple = true) →
      ∃ p, (analyzeTicket w tid sm title descr req).1.priority_prediction = some p) := by
  refine ⟨should_skip_priority_fst_iff _, ?_, ?_⟩
  · intro hcond
    have hfst : (should_skip_priority (pipeSt1 w sm (initialState tid sm title descr req))).1 =
        "recommend" := (should_skip_priority_fst_iff _).mpr hcond
    have h2 : pipeSt2 w sm (initialState tid sm title descr req) =
        (should_skip_priority (pipeSt1 w sm (initialState tid sm title descr req))).2 := by
      unfold pipeSt2
      rw [hfst]
      simp
    have hsnd := should_skip_priority_snd_pos _ hcond
    constructor
    · rw [analyzeTicket_fst, (qa_routing_pres _).2.2.2.2.2.2]
      unfold pipeSt4
      rw [qaReviewNode_steps]
      obtain ⟨s3, hs3⟩ := recommendNode_steps w.tier1 w.tier2 w.recommendError
        (pipeSt2 w sm (initialState tid sm title descr req))
      unfold pipeSt3
      rw [hs3, h2, hsnd]
      simp
    · rw [analyzeTicket_fst, fs_priority, h2, (should_skip_priority_pres _).1.2]
      unfold pipeSt1
      rw [classifyNode_priority]
      rfl
  · intro hcond
    have hfst := should_skip_priority_fst_neg _ hcond
    have h2 : pipeSt2 w sm (initialState tid sm title descr req) =
        prioritizeNode w.priorityError
          (should_skip_priority (pipeSt1 w sm (initialState tid sm title descr req))).2 := by
      unfold pipeSt2
      rw [hfst]
      simp
    obtain ⟨p, hp, _⟩ := prioritizeNode_some w.priorityError
      (should_skip_priority (pipeSt1 w sm (initialState tid sm title descr req))).2
    refine ⟨p, ?_⟩
    rw [analyzeTicket_fst, fs_priority, h2, hp]

/-- Witness for C6: a 0.96-confidence simple ticket skips prioritization and
records the skip step; the default-confidence run keeps the stage. -/
theorem skip_priority_branch_witness :
    ("skipped_priority_due_to_confidence" ∈
        (analyzeTicket wSkip "t" "m" "a" "b" none).1.processing_steps ∧
      (analyzeTicket wSkip "t" "m" "a" "b" none).1.priority_prediction = none) ∧
    (∃ p, (analyzeTicket wWitness "t" "m" "a" "b" none).1.priority_prediction = some p) :=
  ⟨(skip_priority_branch wSkip "t" "m" "a" "b" none).2.1 (by with_unfolding_all decide),
   (skip_priority_branch wWitness "t" "m" "a" "b" none).2.2 (by with_unfolding_all decide)⟩

theorem pipeSt3_classification (w : ExternalWorld) (sm : String) (st0 : TicketState) :
    (pipeSt3 w sm st0).classification = (pipeSt1 w sm st0).classification := by
  unfold pipeSt3
  rw [(recommendNode_pres _ _ _ _).1]
  exact pipeSt2_classification w sm st0

/-- C1: after the QA review stage, a quality score below 0.75 flags the run
for human review — needs_human_review is set, the response status is
"needs_review", and the response carries a draft analysis snapshotting the
stage outputs together with a review URL; a score of at least 0.75 completes
the run. -/
theorem hitl_gate_after_qa (w : ExternalWorld) (tid sm title descr : String)
    (req : Option RequesterInfo) (q : QAReview)
    (hq : (analyzeTicket w tid sm title descr req).1.qa_review = some q) :
    (q.quality_score < 0.75 →
      (analyzeTicket w tid sm title descr req).1.needs_human_review = true ∧
      (analyzeTicket w tid sm title descr req).1.status = "needs_review" ∧
      (analyzeTicket w tid sm title descr req).2.status = "needs_review" ∧
      (∃ d, (analyzeTicket w tid sm title descr req).2.draft_analysis = some d ∧
        d.classification = (analyzeTicket w tid sm title descr req).1.classification ∧
        d.priority_prediction = (analyzeTicket w tid sm title descr req).1.priority_prediction ∧
        d.recommended_solutions = (analyzeTicket w tid sm title descr req).2.recommended_solutions) ∧
      ((analyzeTicket w tid sm title descr req).2.review_url).isSome = true) ∧
    (0.75 ≤ q.quality_score →
      (analyzeTicket w tid sm title descr req).1.status = "completed" ∧
      (analyzeTicket w tid sm title descr req).2.status = "completed") := by
  rw [analyzeTicket_fst, fs_qa, Option.some.injEq] at hq
  have hscore : q.quality_score =
      qaScoreOf (pipeSt3 w sm (initialState tid sm title descr req)).classification
        (pipeSt3 w sm (initialState tid sm title descr req)).priority_prediction
        ((pipeSt3 w sm (initialState tid sm title descr req)).recommended_solutions.getD []) := by
    rw [← hq, qaReviewOf_score]
  have hmap : (((pipeSt4 w sm (initialState tid sm title descr req)).qa_review.map
      (fun r => r.quality_score)).getD 1) = q.quality_score := by
    unfold pipeSt4
    rw [qaReviewNode_qa]
    simp [← hq]
  constructor
  · intro hlt
    have hroute := qa_routing_of_lt (pipeSt4 w sm (initialState tid sm title descr req))
      (by rw [hmap]; exact hlt)
    have hdraft := qaReviewNode_draft_of_lt (pipeSt3 w sm (initialState tid sm title descr req))
      (by rw [← hscore]; exact hlt)
    have hneeds : (analyzeTicket w tid sm title descr req).1.needs_human_review = true := by
      rw [analyzeTicket_fst]
      exact hroute.1
    refine ⟨hneeds, ?_, ?_, ?_, ?_⟩
    · rw [analyzeTicket_fst]
      exact hroute.2
    · rw [analyzeTicket_snd_status, hneeds]
      rfl
    · have hd : (analyzeTicket w tid sm title descr req).2.draft_analysis =
          some
            { classification := (pipeSt3 w sm (initialState tid sm title descr req)).classification,
              priority_prediction :=
                (pipeSt3 w sm (initialState tid sm title descr req)).priority_prediction,
              recommended_solutions :=
                (pipeSt3 w sm (initialState tid sm title descr req)).recommended_solutions.getD [],
              qa_issues := qaIssuesOf
                (pipeSt3 w sm (initialState tid sm title descr req)).classification
                (pipeSt3 w sm (initialState tid sm title descr req)).priority_prediction
                ((pipeSt3 w sm (initialState tid sm title descr req)).recommended_solutions.getD []) } := by
        rw [analyzeTicket_snd_draft, hneeds, if_pos rfl, analyzeTicket_fst,
          (qa_routing_pres _).2.2.2.2.1]
        unfold pipeSt4
        exact hdraft.1
      refine ⟨_, hd, ?_, ?_, ?_⟩
      · rw [analyzeTicket_fst, fs_classification]
        exact pipeSt3_classification w sm _
      · rw [analyzeTicket_fst, fs_priority]
        unfold pipeSt3
        exact (recommendNode_pres _ _ _ _).2.1
      · rw [analyzeTicket_snd_sols, analyzeTicket_fst, fs_sols]
    · rw [analyzeTicket_snd_review_url, hneeds, if_pos rfl, analyzeTicket_fst,
        (qa_routing_pres _).2.2.2.2.2.1]
      unfold pipeSt4
      rw [hdraft.2]
      rfl
  · intro hge
    have hnlt : ¬(((pipeSt4 w sm (initialState tid sm title descr req)).qa_review.map
        (fun r => r.quality_score)).getD 1) < 0.75 := by
      rw [hmap]
      exact not_lt.mpr hge
    have hroute := qa_routing_of_ge (pipeSt4 w sm (initialState tid sm title descr req)) hnlt
    have hneeds : (analyzeTicket w tid sm title descr req).1.needs_human_review = false := by
      rw [analyzeTicket_fst, hroute.1]
      unfold pipeSt4
      rw [(qaReviewNode_pres _).2.2.2]
      unfold pipeSt3
      rw [(recommendNode_pres _ _ _ _).2.2.2.1]
      rw [pipeSt2_needs]
      rfl
    constructor
    · rw [analyzeTicket_fst]
      exact hroute.2
    · rw [analyzeTicket_snd_status, hneeds]
      rfl

/-- Witness for C1: on the default-confidence run the review scores 0.4 and
the run is flagged for human review with a populated draft and URL. -/
theorem hitl_gate_after_qa_witness :
    (analyzeTicket wWitness "t" "m" "a" "b" none).1.needs_human_review = true ∧
    (analyzeTicket wWitness "t" "m" "a" "b" none).1.status = "needs_review" ∧
    (analyzeTicket wWitness "t" "m" "a" "b" none).2.status = "needs_review" ∧
    (∃ d, (analyzeTicket wWitness "t" "m" "a" "b" none).2.draft_analysis = some d ∧
      d.classification = (analyzeTicket wWitness "t" "m" "a" "b" none).1.classification ∧
      d.priority_prediction = (analyzeTicket wWitness "t" "m" "a" "b" none).1.priority_prediction ∧
      d.recommended_solutions =
        (analyzeTicket wWitness "t" "m" "a" "b" none).2.recommended_solutions) ∧
    ((analyzeTicket wWitness "t" "m" "a" "b" none).2.review_url).isSome = true :=
  (hitl_gate_after_qa wWitness "t" "m" "a" "b" none qWitness
      (by with_unfolding_all decide)).1
    (by with_unfolding_all decide)

theorem qaScoreOf_le_of_pri (c : Option Classification) (p : Option PriorityPrediction)
    (sols : List Solution) (hp : ∀ pp, p = some pp → pp.confidence ≤ 0.7) :
    qaScoreOf c p sols ≤ 0.7 := by
  have hpri : qaPriOk p = false := by
    cases p with
    | none => rfl
    | some pp =>
        have hle := hp pp rfl
        unfold qaPriOk
        simp [not_lt.mpr hle]
  unfold qaScoreOf
  rw [hpri]
  simp only [Bool.false_eq_true, if_false]
  split_ifs <;> norm_num

/-- C3 (implicit): the priority node fixes confidence at 0.7 (0.5 on its
error path), and a skipped priority contributes nothing, so the quality
gate's strict check always fails for priority, every reachable quality
score is at most 0.7 < 0.75, the review status is never "approved", and
every run is routed to human review. -/
theorem qa_never_approves (w : ExternalWorld) (tid sm title descr : String)
    (req : Option RequesterInfo) :
    (∀ p, (analyzeTicket w tid sm title descr req).1.priority_prediction = some p →
      p.confidence ≤ 0.7) ∧
    (∀ q, (analyzeTicket w tid sm title descr req).1.qa_review = some q →
      q.quality_score ≤ 0.7 ∧ q.quality_score < 0.75 ∧
      q.status ≠ "approved" ∧ q.status = "needs_revision") ∧
    (analyzeTicket w tid sm title descr req).1.needs_human_review = true ∧
    (analyzeTicket w tid sm title descr req).1.status = "needs_review" := by
  have hpri2 : ∀ p, (pipeSt2 w sm (initialState tid sm title descr req)).priority_prediction =
      some p → p.confidence ≤ 0.7 :=
    pipeSt2_priority_conf w sm (initialState tid sm title descr req) rfl
  have hpri3 : ∀ p, (pipeSt3 w sm (initialState tid sm title descr req)).priority_prediction =
      some p → p.confidence ≤ 0.7 := by
    intro p hp
    refine hpri2 p ?_
    rw [← hp]
    unfold pipeSt3
    exact ((recommendNode_pres _ _ _ _).2.1).symm
  have hscore : qaScoreOf (pipeSt3 w sm (initialState tid sm title descr req)).classification
      (pipeSt3 w sm (initialState tid sm title descr req)).priority_prediction
      ((pipeSt3 w sm (initialState tid sm title descr req)).recommended_solutions.getD []) ≤
        0.7 :=
    qaScoreOf_le_of_pri _ _ _ hpri3
  have hlt : qaScoreOf (pipeSt3 w sm (initialState tid sm title descr req)).classification
      (pipeSt3 w sm (initialState tid sm title descr req)).priority_prediction
      ((pipeSt3 w sm (initialState tid sm title descr req)).recommended_solutions.getD []) <
        0.75 := lt_of_le_of_lt hscore (by norm_num)
  have hroute := qa_routing_of_lt (pipeSt4 w sm (initialState tid sm title descr req))
    (by
      unfold pipeSt4
      rw [qaReviewNode_qa]
      simpa [qaReviewOf_score] using hlt)
  refine ⟨?_, ?_, ?_, ?_⟩
  · intro p hp
    refine hpri2 p ?_
    rw [← hp, analyzeTicket_fst, fs_priority]
  · intro q hq
    rw [analyzeTicket_fst, fs_qa, Option.some.injEq] at hq
    subst hq
    rw [qaReviewOf_score]
    refine ⟨hscore, hlt, ?_, ?_⟩
    · show (qaReviewOf _ _ _).status ≠ "approved"
      unfold qaReviewOf
      dsimp only
      rw [if_neg (not_le.mpr hlt)]
      decide
    · show (qaReviewOf _ _ _).status = "needs_revision"
      unfold qaReviewOf
      dsimp only
      rw [if_neg (not_le.mpr hlt)]
  · rw [analyzeTicket_fst]
    exact hroute.1
  · rw [analyzeTicket_fst]
    exact hroute.2

/-- Witness for C3: on the default run the stored priority confidence is
0.7, the review never approves, and the ticket is flagged. -/
theorem qa_never_approves_witness :
    pWitness.confidence ≤ 0.7 ∧
    (qWitness.quality_score ≤ 0.7 ∧ qWitness.quality_score < 0.75 ∧
      qWitness.status ≠ "approved" ∧ qWitness.status = "needs_revision") ∧
    (analyzeTicket wWitness "t" "m" "a" "b" none).1.needs_human_review = true :=
  ⟨(qa_never_approves wWitness "t" "m" "a" "b" none).1 pWitness (by with_unfolding_all decide),
   (qa_never_approves wWitness "t" "m" "a" "b" none).2.1 qWitness (by with_unfolding_all decide),
   (qa_never_approves wWitness "t" "m" "a" "b" none).2.2.1⟩

/-- C8 counterexample: the workflow's priority stage has no
security/compliance escalation and no HR/Legal floor — a ticket titled
"compliance" from an HR requester matches no keyword tier and comes out
"Low", where the claim requires High (escalation) or at least Medium
(department floor). -/
theorem priority_overlays_counterexample :
    strContains (lowerStr ("compliance" ++ " " ++ "")) "compliance" = true ∧
    ((prioritizeNode none
        (initialState "t" "m" "compliance" "" (some { department := some "hr" }))).priority_prediction.map
      (fun p => p.priority)) = some "Low" ∧
    ("Low" : String) ≠ "High" ∧ ("Low" : String) ≠ "Medium" := by
  refine ⟨by decide, ?_, by decide, by decide⟩
  with_unfolding_all decide


theorem predict_priority_priority (title descr : String) (req : Option RequesterInfo) :
    (predict_priority title descr req).priority =
      (quickSec
        (strContains (lowerStr (title ++ " " ++ descr)) "security" ||
          strContains (lowerStr (title ++ " " ++ descr)) "breach" ||
          strContains (lowerStr (title ++ " " ++ descr)) "compliance")
        (quickDept (req.bind (fun r => r.department))
          (quickBase (lowerStr (title ++ " " ++ descr))))).1 := rfl

theorem quickSec_true (p2 : String × List String) : (quickSec true p2).1 = "High" := by
  unfold quickSec
  rw [if_pos (show (true = true) from rfl)]
  split
  next h => rfl
  next h =>
    simp only [bne_iff_ne, ne_eq, not_not] at h
    exact h

theorem quickSec_ne_low (sec : Bool) (p2 : String × List String) (h : p2.1 ≠ "Low") :
    (quickSec sec p2).1 ≠ "Low" := by
  unfold quickSec
  cases sec with
  | false => exact h
  | true =>
      rw [if_pos (show (true = true) from rfl)]
      split
      · show ("High" : String) ≠ "Low"
        decide
      · exact h

theorem quickDept_hr_floor (d : String) (p1 : String × List String)
    (hd : lowerStr d = "hr" ∨ lowerStr d = "legal") :
    (quickDept (some d) p1).1 ≠ "Low" := by
  have hdne : (d != "") = true := by
    rcases hd with h | h <;>
      · rw [bne_iff_ne]
        intro hcontra
        subst hcontra
        simp [lowerStr] at h
  have hexec : executiveDepartments.contains (lowerStr d) = false := by
    rcases hd with h | h <;> rw [h] <;> decide
  have hhr : ([("hr" : String), "legal"].contains (lowerStr d)) = true := by
    rcases hd with h | h <;> rw [h] <;> decide
  unfold quickDept
  dsimp only
  rw [hdne, if_pos (show (true = true) from rfl), hexec]
  simp only [Bool.false_and, Bool.false_eq_true, if_false]
  rw [hhr]
  simp only [Bool.true_and]
  split
  next h =>
    show ("Medium" : String) ≠ "Low"
    decide
  next h =>
    simp only [beq_iff_eq] at h
    exact h

/-- C8 amended: the security/breach/compliance escalation and the HR/Legal
floor live in the quick predictor `predict_priority` (bulk path), not in the
workflow's priority stage: there, security terms force priority High, and an
HR or Legal department never leaves priority at Low. -/
theorem predict_priority_overlays (title descr : String) (req : Option RequesterInfo) :
    ((strContains (lowerStr (title ++ " " ++ descr)) "security" ||
      strContains (lowerStr (title ++ " " ++ descr)) "breach" ||
      strContains (lowerStr (title ++ " " ++ descr)) "compliance") = true →
      (predict_priority title descr req).priority = "High") ∧
    (∀ d, req = some { department := some d } →
      (lowerStr d = "hr" ∨ lowerStr d = "legal") →
      (predict_priority title descr req).priority ≠ "Low") := by
  constructor
  · intro hsec
    rw [predict_priority_priority, hsec]
    exact quickSec_true _
  · intro d hreq hd
    subst hreq
    rw [predict_priority_priority]
    exact quickSec_ne_low _ _ (quickDept_hr_floor d _ hd)

/-- Witness for C8 amended: a security ticket predicts High, and an HR
requester with a throwaway question is never left at Low. -/
theorem predict_priority_overlays_witness :
    (predict_priority "security issue" "" none).priority = "High" ∧
    (predict_priority "question" "" (some { department := some "HR" })).priority ≠ "Low" :=
  ⟨(predict_priority_overlays "security issue" "" none).1 (by decide),
   (predict_priority_overlays "question" "" (some { department := some "HR" })).2 "HR" rfl
     (Or.inl (by decide))⟩

/-- C9 counterexample: with two unfed-back predictions for the same
(ticket, stage), feedback lands on the earliest record (marked incorrect
here), the most recent unfed-back record stays untouched, and a second
identical call counts the same record again: the per-stage total reaches 2
with zero correct. -/
theorem feedback_counterexample :
    cexT1.predictions.get? 1 = some cexP2 ∧
    ((cexT1.predictions.get? 0).map (fun p => p.actual)) = some (some "B") ∧
    ((cexT1.predictions.get? 0).map (fun p => p.correct)) = some (some false) ∧
    metricsFind cexT2.metrics "classifier" =
      some { total := 2, correct := 0, accuracy := 0, avg_confidence := 0 } := by
  refine ⟨?_, ?_, ?_, ?_⟩ <;> with_unfolding_all decide

theorem feedbackScan_no_match (ticket_id agent actual src : String)
    (l : List PredictionRecord)
    (h : ∀ q ∈ l, ¬(q.ticket_id = ticket_id ∧ q.agent = agent)) :
    feedbackScan ticket_id agent actual src l = (l, none) := by
  induction l with
  | nil => rfl
  | cons q rest ih =>
      have hq : (q.ticket_id == ticket_id && q.agent == agent) = false := by
        have := h q (List.mem_cons_self q rest)
        rw [Bool.and_eq_false_iff]
        by_cases h1 : q.ticket_id = ticket_id
        · right
          rw [beq_eq_false_iff_ne]
          intro h2
          exact this ⟨h1, h2⟩
        · left
          rw [beq_eq_false_iff_ne]
          exact h1
      unfold feedbackScan
      rw [hq]
      simp only [Bool.false_eq_true, if_false]
      rw [ih (fun q hm => h q (List.mem_cons_of_mem _ hm))]

theorem feedbackScan_first_match (ticket_id agent actual src : String)
    (pre post : List PredictionRecord) (p : PredictionRecord)
    (hpre : ∀ q ∈ pre, ¬(q.ticket_id = ticket_id ∧ q.agent = agent))
    (ht : p.ticket_id = ticket_id) (ha : p.agent = agent) :
    feedbackScan ticket_id agent actual src (pre ++ p :: post) =
      (pre ++ updateRecord p actual src :: post,
        some (lowerStr p.predicted == lowerStr actual)) := by
  induction pre with
  | nil =>
      have hp : (p.ticket_id == ticket_id && p.agent == agent) = true := by
        rw [Bool.and_eq_true, beq_iff_eq, beq_iff_eq]
        exact ⟨ht, ha⟩
      show feedbackScan ticket_id agent actual src (p :: post) = _
      unfold feedbackScan
      rw [hp]
      rfl
  | cons q rest ih =>
      have hq : (q.ticket_id == ticket_id && q.agent == agent) = false := by
        have hnm := hpre q (List.mem_cons_self q rest)
        rw [Bool.and_eq_false_iff]
        by_cases h1 : q.ticket_id = ticket_id
        · right
          rw [beq_eq_false_iff_ne]
          intro h2
          exact hnm ⟨h1, h2⟩
        · left
          rw [beq_eq_false_iff_ne]
          exact h1
      have ih2 := ih (fun r hm => hpre r (List.mem_cons_of_mem _ hm))
      show feedbackScan ticket_id agent actual src (q :: (rest ++ p :: post)) = _
      unfold feedbackScan
      rw [hq]
      simp only [Bool.false_eq_true, if_false]
      rw [ih2]
      rfl

theorem metricsFind_map_set (ms : List (String × AgentMetric)) (agent : String)
    (m : AgentMetric) (hany : ms.any (fun kv => kv.1 == agent) = true) :
    metricsFind (ms.map (fun kv => if kv.1 == agent then (agent, m) else kv)) agent =
      some m := by
  induction ms with
  | nil => cases hany
  | cons kv rest ih =>
      rw [List.map_cons]
      by_cases hk : (kv.1 == agent) = true
      · rw [if_pos hk]
        unfold metricsFind
        rw [List.find?_cons]
        simp only [beq_self_eq_true]
        rfl
      · rw [if_neg hk]
        unfold metricsFind
        rw [List.find?_cons]
        rw [Bool.not_eq_true] at hk
        simp only [hk]
        have hrest : rest.any (fun kv => kv.1 == agent) = true := by
          rw [List.any_cons] at hany
          cases (Bool.or_eq_true _ _).mp hany with
          | inl h => simp [h] at hk
          | inr h => exact h
        exact ih hrest

theorem metricsFind_append_set (ms : List (String × AgentMetric)) (agent : String)
    (m : AgentMetric) (hnone : ms.any (fun kv => kv.1 == agent) = false) :
    metricsFind (ms ++ [(agent, m)]) agent = some m := by
  induction ms with
  | nil =>
      show metricsFind [(agent, m)] agent = some m
      unfold metricsFind
      rw [List.find?_cons]
      simp only [beq_self_eq_true]
      rfl
  | cons kv rest ih =>
      rw [List.any_cons, Bool.or_eq_false_iff] at hnone
      show metricsFind (kv :: (rest ++ [(agent, m)])) agent = some m
      unfold metricsFind
      rw [List.find?_cons]
      simp only [hnone.1]
      exact ih hnone.2

theorem metricsFind_metricsSet (ms : List (String × AgentMetric)) (agent : String)
    (m : AgentMetric) : metricsFind (metricsSet ms agent m) agent = some m := by
  unfold metricsSet
  split
  next hany => exact metricsFind_map_set ms agent m hany
  next hany => exact metricsFind_append_set ms agent m (by rwa [Bool.not_eq_true] at hany)

theorem log_agent_feedback_eq (pre post : List PredictionRecord) (p : PredictionRecord)
    (ms : List (String × AgentMetric)) (ticket_id agent actual src : String)
    (hpre : ∀ q ∈ pre, ¬(q.ticket_id = ticket_id ∧ q.agent = agent))
    (ht : p.ticket_id = ticket_id) (ha : p.agent = agent) :
    log_agent_feedback { predictions := pre ++ p :: post, metrics := ms }
        ticket_id agent actual src =
      { predictions := pre ++ updateRecord p actual src :: post,
        metrics := metricsSet ms agent
          (bumpMetric ((metricsFind ms agent).getD emptyMetric)
            (lowerStr p.predicted == lowerStr actual)) } := by
  unfold log_agent_feedback
  rw [feedbackScan_first_match ticket_id agent actual src pre post p hpre ht ha]

/-- C9 amended: feedback attaches to the earliest-logged prediction for the
(ticket, stage) pair, whether or not it already carries feedback, marking it
correct by lowercase equality; every call with a match bumps the per-stage
total, so a second identical call counts the same record again (total rises
by 2 while the later predictions stay unfed). -/
theorem feedback_first_match_double_count (pre post : List PredictionRecord)
    (p : PredictionRecord) (ms : List (String × AgentMetric))
    (ticket_id agent actual src : String)
    (hpre : ∀ q ∈ pre, ¬(q.ticket_id = ticket_id ∧ q.agent = agent))
    (ht : p.ticket_id = ticket_id) (ha : p.agent = agent) :
    (log_agent_feedback { predictions := pre ++ p :: post, metrics := ms }
        ticket_id agent actual src).predictions =
      pre ++ updateRecord p actual src :: post ∧
    ((metricsFind (log_agent_feedback { predictions := pre ++ p :: post, metrics := ms }
        ticket_id agent actual src).metrics agent).map (fun mm => mm.total)) =
      some (((metricsFind ms agent).getD emptyMetric).total + 1) ∧
    (log_agent_feedback (log_agent_feedback { predictions := pre ++ p :: post, metrics := ms }
        ticket_id agent actual src) ticket_id agent actual src).predictions =
      pre ++ updateRecord p actual src :: post ∧
    ((metricsFind (log_agent_feedback (log_agent_feedback
        { predictions := pre ++ p :: post, metrics := ms } ticket_id agent actual src)
        ticket_id agent actual src).metrics agent).map (fun mm => mm.total)) =
      some (((metricsFind ms agent).getD emptyMetric).total + 2) := by
  have h1 := log_agent_feedback_eq pre post p ms ticket_id agent actual src hpre ht ha
  have h2 := log_agent_feedback_eq pre post (updateRecord p actual src)
    (metricsSet ms agent
      (bumpMetric ((metricsFind ms agent).getD emptyMetric)
        (lowerStr p.predicted == lowerStr actual)))
    ticket_id agent actual src hpre ht ha
  have hupd : updateRecord (updateRecord p actual src) actual src =
      updateRecord p actual src := rfl
  refine ⟨?_, ?_, ?_, ?_⟩
  · rw [h1]
  · rw [h1]
    show ((metricsFind (metricsSet ms agent _) agent).map (fun mm => mm.total)) = _
    rw [metricsFind_metricsSet]
    rfl
  · rw [h1, h2, hupd]
  · rw [h1, h2]
    show ((metricsFind (metricsSet _ agent _) agent).map (fun mm => mm.total)) = _
    rw [metricsFind_metricsSet]
    show some ((bumpMetric ((metricsFind (metricsSet ms agent _) agent).getD emptyMetric) _).total) = _
    rw [metricsFind_metricsSet]
    rfl

/-- Witness for C9 amended: one unrelated record ahead, a matching record,
and a later matching record behind; feedback lands on the middle record and
two calls double its stage total. -/
theorem feedback_first_match_double_count_witness :
    (log_agent_feedback { predictions := [cexOther] ++ cexP1 :: [cexP2], metrics := [] }
        "t1" "classifier" "B" "user").predictions =
      [cexOther] ++ updateRecord cexP1 "B" "user" :: [cexP2] ∧
    ((metricsFind (log_agent_feedback
        { predictions := [cexOther] ++ cexP1 :: [cexP2], metrics := [] }
        "t1" "classifier" "B" "user").metrics "classifier").map (fun mm => mm.total)) =
      some (((metricsFind [] "classifier").getD emptyMetric).total + 1) ∧
    (log_agent_feedback (log_agent_feedback
        { predictions := [cexOther] ++ cexP1 :: [cexP2], metrics := [] }
        "t1" "classifier" "B" "user") "t1" "classifier" "B" "user").predictions =
      [cexOther] ++ updateRecord cexP1 "B" "user" :: [cexP2] ∧
    ((metricsFind (log_agent_feedback (log_agent_feedback
        { predictions := [cexOther] ++ cexP1 :: [cexP2], metrics := [] }
        "t1" "classifier" "B" "user") "t1" "classifier" "B" "user").metrics "classifier").map
      (fun mm => mm.total)) =
      some (((metricsFind [] "classifier").getD emptyMetric).total + 2) :=
  feedback_first_match_double_count [cexOther] [cexP2] cexP1 [] "t1" "classifier" "B" "user"
    (by decide) rfl rfl
